import Mathlib

/-!
Verification of the wake-lock subsystem of CodeCanna/pipali
(`src/src-tauri/src/wake_lock.rs`) against its specification.

The Rust module is embedded shallowly: the four mutex-protected fields of
`WakeLockState` become a plain structure (the claims under scrutiny concern
sequential executions), the opaque `keepawake::KeepAwake` guard becomes its
presence as a `Bool`, the outcome of `keepawake::Builder::create()` is an
explicit input to each operation that may attempt it, and the settings file
is a `FileContent` value capturing the observable outcomes of
`std::fs::read_to_string` + `serde_json::from_str`.
-/

/-- JSON values, mirroring `serde_json::Value`. Objects are association
lists of key/value pairs; numbers are modelled as integers, enough for every
numeric document in the claims. -/
inductive Json where
  | null
  | bool (b : Bool)
  | num (n : Int)
  | str (s : String)
  | arr (xs : List Json)
  | obj (kvs : List (String × Json))

/-- The key `save_keep_awake` and `load_keep_awake` read and write. -/
def keepAwakeKey : String := "keep_awake"

/-- An unrelated key used by the settings round-trip scenario. -/
def otherKey : String := "other_key"

/-- What the settings file can hold, as observed through
`read_to_string(..).ok()` and `serde_json::from_str(..).ok()`: the file may
be missing, unreadable, readable but not valid JSON, or a valid JSON
document. -/
inductive FileContent where
  | missing
  | unreadable
  | malformed
  | valid (j : Json)

/-- `std::fs::read_to_string(&path).ok().and_then(|s| serde_json::from_str::<serde_json::Value>(&s).ok())`:
`some` exactly when the file is readable and parses. -/
def parseRead : FileContent → Option Json
  | .valid j => some j
  | _ => none

/-- Key lookup in a JSON object map. -/
def lookupKey : List (String × Json) → String → Option Json
  | [], _ => none
  | (k', v) :: rest, k => if k' = k then some v else lookupKey rest k

/-- `serde_json::Value::get` with a string key: `Some` only on objects. -/
def Json.get : Json → String → Option Json
  | .obj kvs, k => lookupKey kvs k
  | _, _ => none

/-- `serde_json::Value::as_bool`. -/
def Json.as_bool : Json → Option Bool
  | .bool b => some b
  | _ => none

/-- `load_keep_awake` (wake_lock.rs lines 25-32): read, parse, fetch the
`keep_awake` key as a boolean, and default to `false` at every failure. -/
def load_keep_awake (c : FileContent) : Bool :=
  (((parseRead c).bind fun v => (v.get keepAwakeKey).bind Json.as_bool).getD false)

/-- Insert-or-replace a key in a JSON object map, as `serde_json::Map`
insertion behaves under lookup. -/
def setKey : List (String × Json) → String → Json → List (String × Json)
  | [], k, v => [(k, v)]
  | (k', v') :: rest, k, v =>
      if k' = k then (k, v) :: rest else (k', v') :: setKey rest k v

/-- The assignment `value[key] = x` on a `serde_json::Value`
(`index_or_insert` in serde_json): a `Null` target is first replaced by an
empty object; on any other non-object target the Rust code panics, which is
modelled as `none`. -/
def Json.indexSet : Json → String → Json → Option Json
  | .null, k, v => some (.obj [(k, v)])
  | .obj kvs, k, v => some (.obj (setKey kvs k v))
  | _, _, _ => none

/-- `save_keep_awake` (wake_lock.rs lines 34-45): parse the existing file,
default to an empty object when reading or parsing fails, assign the
`keep_awake` key, and write the document back. `some j` is the document
written (a failed `std::fs::write` is only logged and does not change it);
`none` is a panic in the index assignment. -/
def save_keep_awake (c : FileContent) (enabled : Bool) : Option Json :=
  (((parseRead c).getD (Json.obj [])).indexSet keepAwakeKey (Json.bool enabled))

/-- `2^32`: the modulus of the source's `u32` counter. -/
def u32Mod : Nat := 4294967296

/-- The fields of `WakeLockState` (wake_lock.rs lines 7-12), with the
mutexes erased for the sequential model: `guard` is the presence of the
`keepawake::KeepAwake` handle and `data_dir` an abstract location. `count`
holds the value of the source's `u32` field as a `Nat`; the operations
below reproduce `u32` arithmetic exactly — the increment wraps modulo
`u32Mod` and the decrement is `saturating_sub` — so every state reachable
from the default has `count < u32Mod`. -/
structure WakeLockState where
  count : Nat
  guard : Bool
  user_enabled : Bool
  data_dir : Option Nat
deriving DecidableEq

/-- `Default::default()` for `WakeLockState` (wake_lock.rs lines 14-23). -/
def WakeLockState.defaultState : WakeLockState :=
  ⟨0, false, false, none⟩

/-- The observable side effects the claims mention: the error log emitted
when handle creation fails, and a call to `save_keep_awake` with the flag
being persisted. -/
inductive Event where
  | logError
  | saveWrite (enabled : Bool)
deriving DecidableEq

/-- `WakeLockState::increment` (wake_lock.rs lines 88-108). `ok` is whether
`keepawake::Builder::default()...create()` succeeds when the 0 → 1
transition attempts it; on failure the function logs an error and returns
before `*count += 1`. The unchecked `*count += 1` on the `u32` counter is
`u32` addition, which wraps modulo `2^32` (release-build semantics; a debug
build would instead abort at the same point, so either way the count does
not exceed the `u32` range). -/
def incrementE (ok : Bool) (s : WakeLockState) : WakeLockState × List Event :=
  if s.count = 0 then
    if ok then ({ s with guard := true, count := (s.count + 1) % u32Mod }, [])
    else (s, [Event.logError])
  else ({ s with count := (s.count + 1) % u32Mod }, [])

/-- `WakeLockState::decrement` (wake_lock.rs lines 110-118): saturating
decrement, dropping the guard when the count reaches zero. -/
def decrement (s : WakeLockState) : WakeLockState :=
  let c := s.count - 1
  if c = 0 then { s with count := c, guard := false }
  else { s with count := c }

/-- `WakeLockState::user_toggle` (wake_lock.rs lines 71-86): flip the flag,
run the matching count path, then persist the new flag through
`save_keep_awake` when a data directory is set (a no-op otherwise); the
third component is the returned new flag value. -/
def user_toggleE (ok : Bool) (s : WakeLockState) :
    WakeLockState × List Event × Bool :=
  let p :=
    if s.user_enabled then (decrement { s with user_enabled := false }, ([] : List Event))
    else incrementE ok { s with user_enabled := true }
  let newState := p.1.user_enabled
  let saveEv : List Event :=
    match p.1.data_dir with
    | some _ => [Event.saveWrite newState]
    | none => []
  (p.1, p.2 ++ saveEv, newState)

/-- `WakeLockState::init` (wake_lock.rs lines 49-57): store the data
directory, load the persisted flag from the settings file `content`, and
when it is `true` set `user_enabled` and run the increment path without
re-persisting. -/
def initE (ok : Bool) (content : FileContent) (loc : Nat) (s : WakeLockState) :
    WakeLockState × List Event :=
  let s0 := { s with data_dir := some loc }
  if load_keep_awake content then
    incrementE ok { s0 with user_enabled := true }
  else (s0, [])

/-- `WakeLockState::release_all` (wake_lock.rs lines 64-68). -/
def release_all (s : WakeLockState) : WakeLockState :=
  { s with count := 0, user_enabled := false, guard := false }

/-- One call into the manager together with the environment inputs it
depends on: whether handle creation would succeed if attempted, and for
`init` the settings file content and the location. `acquire` and `release`
are the `acquire_wake_lock` / `release_wake_lock` command paths
(wake_lock.rs lines 121-131). -/
inductive Op where
  | acquire (ok : Bool)
  | release
  | userToggle (ok : Bool)
  | releaseAll
  | init (ok : Bool) (content : FileContent) (loc : Nat)

/-- One operation applied to a state, with the events it emits. -/
def step (s : WakeLockState) (op : Op) : WakeLockState × List Event :=
  match op with
  | .acquire ok => incrementE ok s
  | .release => (decrement s, [])
  | .userToggle ok => ((user_toggleE ok s).1, (user_toggleE ok s).2.1)
  | .releaseAll => (release_all s, [])
  | .init ok content loc => initE ok content loc s

/-- The state after a sequence of operations from the default state. -/
def run (ops : List Op) : WakeLockState :=
  ops.foldl (fun s op => (step s op).1) WakeLockState.defaultState

/-- Ghost accounting for the user-unit claim: alongside the state, the net
number of units the automatic `acquire`/`release` callers have actually
contributed to `count` (an increment that fails or a decrement that
saturates contributes the change it actually made, namely zero);
`release_all` clears every contribution together with the count. -/
def ghostStep (p : WakeLockState × Int) (op : Op) : WakeLockState × Int :=
  let t := (step p.1 op).1
  match op with
  | .acquire _ => (t, p.2 + ((t.count : Int) - (p.1.count : Int)))
  | .release => (t, p.2 + ((t.count : Int) - (p.1.count : Int)))
  | .releaseAll => (t, 0)
  | _ => (t, p.2)

/-- State and automatic-caller contribution after a sequence of operations
from the default state. -/
def runG (ops : List Op) : WakeLockState × Int :=
  ops.foldl ghostStep (WakeLockState.defaultState, 0)

/-- Every operation in the list that could attempt handle creation would
succeed: no simulated handle-creation failure. -/
def allOk : List Op → Bool
  | [] => true
  | op :: rest =>
      (match op with
       | .acquire ok => ok
       | .userToggle ok => ok
       | .init ok _ _ => ok
       | _ => true) && allOk rest

/-- The list consists only of automatic `acquire`/`release` calls. -/
def arOnly : List Op → Bool
  | [] => true
  | Op.acquire _ :: rest => arOnly rest
  | Op.release :: rest => arOnly rest
  | _ => false

/-- Trace conditions from the state `s` onward: every attempted handle
creation succeeds, every decrement (automatic release or toggle-off) runs
while the count is positive, and `init` runs only while the user flag is
off, as in its once-at-startup lifecycle. -/
def goodTrace : WakeLockState → List Op → Bool
  | _, [] => true
  | s, op :: rest =>
      (match op with
       | .acquire ok => ok
       | .release => decide (0 < s.count)
       | .userToggle ok => if s.user_enabled then decide (0 < s.count) else ok
       | .releaseAll => true
       | .init ok _ _ => ok && !s.user_enabled) &&
      goodTrace (step s op).1 rest

/-- The guard/count coupling: the handle is held exactly while the count is
positive. -/
def guardInv (s : WakeLockState) : Prop := s.guard = true ↔ 0 < s.count

/-- The one-directional coupling that survives even counter wrap-around:
whenever the count is positive the handle is held. -/
def weakInv (s : WakeLockState) : Prop := 0 < s.count → s.guard = true

lemma ghostStep_fst (p : WakeLockState × Int) (op : Op) :
    (ghostStep p op).1 = (step p.1 op).1 := by
  cases op <;> rfl

lemma set_ue_count (s : WakeLockState) (b : Bool) :
    ({ s with user_enabled := b } : WakeLockState).count = s.count := rfl

lemma set_ue_ue (s : WakeLockState) (b : Bool) :
    ({ s with user_enabled := b } : WakeLockState).user_enabled = b := rfl

lemma incrementE_user_enabled (ok : Bool) (s : WakeLockState) :
    (incrementE ok s).1.user_enabled = s.user_enabled := by
  unfold incrementE
  split_ifs <;> rfl

lemma incrementE_count (ok : Bool) (s : WakeLockState) :
    (incrementE ok s).1.count
      = if s.count = 0 ∧ ok = false then s.count else (s.count + 1) % u32Mod := by
  unfold incrementE
  split_ifs <;> simp_all

lemma incrementE_count_ok (s : WakeLockState) :
    (incrementE true s).1.count = (s.count + 1) % u32Mod := by
  unfold incrementE
  split_ifs <;> simp_all

lemma incrementE_guard (ok : Bool) (s : WakeLockState) :
    (incrementE ok s).1.guard = if s.count = 0 ∧ ok = true then true else s.guard := by
  unfold incrementE
  split_ifs <;> simp_all

lemma incrementE_count_le (ok : Bool) (s : WakeLockState) :
    (incrementE ok s).1.count ≤ s.count + 1 := by
  rw [incrementE_count]
  split_ifs
  · exact Nat.le_succ _
  · exact Nat.mod_le _ _

lemma decrement_user_enabled (s : WakeLockState) :
    (decrement s).user_enabled = s.user_enabled := by
  unfold decrement
  simp only []
  split_ifs <;> rfl

lemma decrement_count (s : WakeLockState) :
    (decrement s).count = s.count - 1 := by
  unfold decrement
  simp only []
  split_ifs <;> rfl

lemma decrement_guard (s : WakeLockState) :
    (decrement s).guard = if s.count - 1 = 0 then false else s.guard := by
  unfold decrement
  simp only []
  split_ifs <;> rfl

lemma user_toggleE_fst (ok : Bool) (s : WakeLockState) :
    (user_toggleE ok s).1 =
      if s.user_enabled then decrement { s with user_enabled := false }
      else (incrementE ok { s with user_enabled := true }).1 := by
  unfold user_toggleE
  by_cases h : s.user_enabled <;> simp [h]

lemma user_toggleE_ret (ok : Bool) (s : WakeLockState) :
    (user_toggleE ok s).2.2 = (user_toggleE ok s).1.user_enabled := by
  unfold user_toggleE
  by_cases h : s.user_enabled <;> simp [h]

lemma step_count_le (s : WakeLockState) (op : Op) :
    (step s op).1.count ≤ s.count + 1 := by
  cases op with
  | acquire ok => exact incrementE_count_le ok s
  | release =>
      show (decrement s).count ≤ s.count + 1
      rw [decrement_count]
      omega
  | userToggle ok =>
      show (user_toggleE ok s).1.count ≤ s.count + 1
      rw [user_toggleE_fst]
      split_ifs
      · rw [decrement_count, set_ue_count]
        omega
      · exact incrementE_count_le ok _
  | releaseAll =>
      show (release_all s).count ≤ s.count + 1
      simp [release_all]
  | init ok content loc =>
      show (initE ok content loc s).1.count ≤ s.count + 1
      unfold initE
      by_cases hl : load_keep_awake content <;> simp only [hl, if_true, if_false]
      · exact incrementE_count_le ok _
      · exact Nat.le_succ _

lemma guardInv_incrementE (ok : Bool) (s : WakeLockState) (h : guardInv s)
    (hlt : s.count + 1 < u32Mod) :
    guardInv (incrementE ok s).1 := by
  unfold guardInv at *
  rw [incrementE_guard, incrementE_count]
  split_ifs with h1 h2 h2
  · obtain ⟨-, ho⟩ := h1
    obtain ⟨-, ho2⟩ := h2
    rw [ho] at ho2
    simp at ho2
  · obtain ⟨h0, -⟩ := h1
    rw [h0]
    simp [u32Mod]
  · exact h
  · have hne : s.count ≠ 0 := by
      intro h0
      cases ok with
      | false => exact h2 ⟨h0, rfl⟩
      | true => exact h1 ⟨h0, rfl⟩
    rw [Nat.mod_eq_of_lt hlt]
    constructor
    · intro _
      omega
    · intro _
      exact h.2 (Nat.pos_of_ne_zero hne)

lemma guardInv_decrement (s : WakeLockState) (h : guardInv s) :
    guardInv (decrement s) := by
  unfold guardInv decrement at *
  simp only []
  split_ifs with h0 <;> simp_all <;> omega

lemma guardInv_step (s : WakeLockState) (op : Op) (h : guardInv s)
    (hlt : s.count + 1 < u32Mod) :
    guardInv (step s op).1 := by
  cases op with
  | acquire ok => exact guardInv_incrementE ok s h hlt
  | release => exact guardInv_decrement s h
  | userToggle ok =>
      show guardInv (user_toggleE ok s).1
      rw [user_toggleE_fst]
      split_ifs
      · exact guardInv_decrement _ h
      · exact guardInv_incrementE _ _ h hlt
  | releaseAll =>
      show guardInv (release_all s)
      unfold guardInv release_all
      simp
  | init ok content loc =>
      show guardInv (initE ok content loc s).1
      unfold initE
      by_cases hl : load_keep_awake content <;> simp only [hl, if_true, if_false]
      · exact guardInv_incrementE _ _ h hlt
      · exact h

lemma guardInv_foldl (ops : List Op) (s : WakeLockState) (h : guardInv s)
    (hb : s.count + ops.length < u32Mod) :
    guardInv (ops.foldl (fun s op => (step s op).1) s) := by
  induction ops generalizing s with
  | nil => exact h
  | cons op rest ih =>
      simp only [List.foldl_cons]
      simp only [List.length_cons] at hb
      refine ih _ (guardInv_step s op h (by omega)) ?_
      have hle := step_count_le s op
      omega

lemma guardInv_run (ops : List Op) (hb : ops.length < u32Mod) : guardInv (run ops) :=
  guardInv_foldl ops WakeLockState.defaultState
    (by unfold guardInv WakeLockState.defaultState; simp)
    (by simpa [WakeLockState.defaultState] using hb)

lemma weakInv_incrementE (ok : Bool) (s : WakeLockState) (h : weakInv s) :
    weakInv (incrementE ok s).1 := by
  unfold weakInv at *
  intro hc
  rw [incrementE_guard]
  split_ifs with h1
  · rfl
  · rw [incrementE_count] at hc
    split_ifs at hc with h2
    · obtain ⟨h0, -⟩ := h2
      omega
    · have hne : s.count ≠ 0 := by
        intro h0
        cases ok with
        | false => exact h2 ⟨h0, rfl⟩
        | true => exact h1 ⟨h0, rfl⟩
      exact h (Nat.pos_of_ne_zero hne)

lemma weakInv_decrement (s : WakeLockState) (h : weakInv s) :
    weakInv (decrement s) := by
  unfold weakInv at *
  intro hc
  rw [decrement_count] at hc
  rw [decrement_guard, if_neg (by omega)]
  exact h (by omega)

lemma weakInv_step (s : WakeLockState) (op : Op) (h : weakInv s) :
    weakInv (step s op).1 := by
  cases op with
  | acquire ok => exact weakInv_incrementE ok s h
  | release => exact weakInv_decrement s h
  | userToggle ok =>
      show weakInv (user_toggleE ok s).1
      rw [user_toggleE_fst]
      split_ifs
      · exact weakInv_decrement _ h
      · exact weakInv_incrementE _ _ h
  | releaseAll =>
      show weakInv (release_all s)
      intro hc
      simp [release_all] at hc
  | init ok content loc =>
      show weakInv (initE ok content loc s).1
      unfold initE
      by_cases hl : load_keep_awake content <;> simp only [hl, if_true, if_false]
      · exact weakInv_incrementE _ _ h
      · exact h

lemma weakInv_foldl (ops : List Op) (s : WakeLockState) (h : weakInv s) :
    weakInv (ops.foldl (fun s op => (step s op).1) s) := by
  induction ops generalizing s with
  | nil => exact h
  | cons op rest ih =>
      simp only [List.foldl_cons]
      exact ih _ (weakInv_step s op h)

lemma weakInv_run (ops : List Op) : weakInv (run ops) :=
  weakInv_foldl ops WakeLockState.defaultState
    (by intro hc; simp [WakeLockState.defaultState] at hc)

/-- The accounting the user-unit claim is about: the count splits into the
automatic callers' net contribution plus one unit exactly when the user
flag is on. -/
def countInv (p : WakeLockState × Int) : Prop :=
  (p.1.count : Int) = p.2 + (if p.1.user_enabled = true then 1 else 0)

lemma countInv_ghostStep (p : WakeLockState × Int) (op : Op)
    (hc : countInv p) (hlt : p.1.count + 1 < u32Mod)
    (hg : (match op with
           | .acquire ok => ok
           | .release => decide (0 < p.1.count)
           | .userToggle ok => if p.1.user_enabled then decide (0 < p.1.count) else ok
           | .releaseAll => true
           | .init ok _ _ => ok && !p.1.user_enabled) = true) :
    countInv (ghostStep p op) := by
  obtain ⟨s, a⟩ := p
  cases op with
  | acquire ok =>
      unfold countInv ghostStep at *
      simp only [step, incrementE_user_enabled] at *
      by_cases hu : s.user_enabled = true <;> simp only [hu, if_true, if_false] at * <;> omega
  | release =>
      unfold countInv ghostStep at *
      simp only [step, decrement_user_enabled] at *
      by_cases hu : s.user_enabled = true <;> simp only [hu, if_true, if_false] at * <;> omega
  | userToggle ok =>
      unfold countInv ghostStep at *
      simp only [step, user_toggleE] at *
      cases hu : s.user_enabled with
      | true =>
          simp only [hu, if_true, decide_eq_true_eq] at hg
          simp only [hu, if_true, decrement_user_enabled, decrement_count,
            Bool.false_eq_true, if_false, eq_self_iff_true] at *
          omega
      | false =>
          simp only [hu, Bool.false_eq_true, if_false] at hg ⊢
          subst hg
          simp only [incrementE_user_enabled, incrementE_count_ok] at *
          simp only [hu, Bool.false_eq_true, if_false, if_true, eq_self_iff_true] at *
          rw [Nat.mod_eq_of_lt hlt]
          omega
  | releaseAll =>
      unfold countInv ghostStep at *
      simp [step, release_all]
  | init ok content loc =>
      unfold countInv ghostStep at *
      simp only [step, initE] at *
      simp only [Bool.and_eq_true, Bool.not_eq_true'] at hg
      obtain ⟨hok, hu⟩ := hg
      subst hok
      by_cases hl : load_keep_awake content = true
      · simp only [hl, if_true] at *
        simp only [incrementE_user_enabled, incrementE_count_ok] at *
        simp only [hu, Bool.false_eq_true, if_false] at hc
        simp only [if_true]
        rw [Nat.mod_eq_of_lt hlt]
        omega
      · simp only [hl] at *
        simp_all

lemma lookupKey_setKey (kvs : List (String × Json)) (k q : String) (v : Json) :
    lookupKey (setKey kvs k v) q = if k = q then some v else lookupKey kvs q := by
  induction kvs with
  | nil => simp [setKey, lookupKey]
  | cons hd tl ih =>
      obtain ⟨k1, v1⟩ := hd
      simp only [setKey]
      by_cases h1 : k1 = k
      · subst h1
        by_cases h3 : k1 = q <;> simp_all [lookupKey]
      · by_cases h2 : k1 = q <;> by_cases h3 : k = q <;> simp_all [lookupKey]

lemma countInv_foldl (ops : List Op) (p : WakeLockState × Int)
    (hc : countInv p) (hg : goodTrace p.1 ops = true)
    (hb : p.1.count + ops.length < u32Mod) :
    countInv (ops.foldl ghostStep p) := by
  induction ops generalizing p with
  | nil => exact hc
  | cons op rest ih =>
      simp only [List.foldl_cons]
      unfold goodTrace at hg
      simp only [Bool.and_eq_true] at hg
      simp only [List.length_cons] at hb
      refine ih (ghostStep p op) (countInv_ghostStep p op hc (by omega) hg.1) ?_ ?_
      · rw [ghostStep_fst]
        exact hg.2
      · rw [ghostStep_fst]
        have hle := step_count_le p.1 op
        omega

/-- Claim C1 counterexample: an acquire that transitions from `count = 0`
and whose handle creation fails leaves the count at 0 — the count is not
incremented, so the manager is not left in a count-positive, guard-absent
(DEGRADED) state as the claim asserts: `increment` returns before
`*count += 1`. -/
theorem c1_counterexample :
    (incrementE false WakeLockState.defaultState).1.count = 0 ∧
      ¬ (0 < (incrementE false WakeLockState.defaultState).1.count ∧
          (incrementE false WakeLockState.defaultState).1.guard = false) := by
  decide

/-- Claim C1 (amended): for every acquire that transitions from
`active_count = 0` and whose handle creation fails, the failure is logged
and no handle is stored, and `active_count` is left unchanged — the state
is entirely untouched, so the manager stays in the IDLE state rather than
entering a degraded one. -/
theorem c1_amended_failure_leaves_idle (s : WakeLockState) (h : s.count = 0) :
    incrementE false s = (s, [Event.logError]) := by
  simp [incrementE, h]

/-- Claim C1 witness: the amended statement at the default state. -/
theorem c1_amended_witness :
    incrementE false WakeLockState.defaultState
      = (WakeLockState.defaultState, [Event.logError]) :=
  c1_amended_failure_leaves_idle WakeLockState.defaultState rfl

/-- Claim C3: save over a missing file completes, but saving over a settings
file holding the valid JSON document `5` reaches serde_json's index
assignment on a non-object, non-null value, which panics — the save does
not complete, contradicting the claim that no content can crash it. -/
theorem c3_save_panics_on_nonobject :
    save_keep_awake FileContent.missing true
        = some (Json.obj [(keepAwakeKey, Json.bool true)]) ∧
      save_keep_awake (FileContent.valid (Json.num 5)) true = none :=
  ⟨rfl, rfl⟩

/-- Claim C7: saving over an existing JSON object document writes back the
whole document with the `keep_awake` key set to the given flag and every
other key bound exactly as before; in particular saving `keep_awake = true`
over the document with only `other_key = 1` yields that document extended
with `keep_awake = true`. -/
theorem c7_save_preserves_other_fields (kvs : List (String × Json))
    (enabled : Bool) (q : String) (hq : q ≠ keepAwakeKey) :
    save_keep_awake (FileContent.valid (Json.obj kvs)) enabled
        = some (Json.obj (setKey kvs keepAwakeKey (Json.bool enabled))) ∧
      lookupKey (setKey kvs keepAwakeKey (Json.bool enabled)) keepAwakeKey
        = some (Json.bool enabled) ∧
      lookupKey (setKey kvs keepAwakeKey (Json.bool enabled)) q = lookupKey kvs q ∧
      save_keep_awake (FileContent.valid (Json.obj [(otherKey, Json.num 1)])) true
        = some (Json.obj [(otherKey, Json.num 1), (keepAwakeKey, Json.bool true)]) := by
  refine ⟨rfl, ?_, ?_, rfl⟩
  · rw [lookupKey_setKey]
    simp
  · rw [lookupKey_setKey, if_neg (Ne.symm hq)]

/-- Claim C7 witness: the frame condition at the round-trip document. -/
theorem c7_witness :
    lookupKey (setKey [(otherKey, Json.num 1)] keepAwakeKey (Json.bool true)) otherKey
      = lookupKey [(otherKey, Json.num 1)] otherKey :=
  (c7_save_preserves_other_fields [(otherKey, Json.num 1)] true otherKey (by decide)).2.2.1

/-- Claim C8: for every sequence of automatic acquire/release calls from the
default state the count is non-negative after every call, and a further
release arriving when the count is 0 leaves it at 0 — the decrement
saturates instead of wrapping or going negative. -/
theorem c8_count_nonneg_and_saturating (ops : List Op) (_h : arOnly ops = true) :
    0 ≤ ((run ops).count : Int) ∧
      ((run ops).count = 0 → (run (ops ++ [Op.release])).count = 0) := by
  constructor
  · exact Int.natCast_nonneg _
  · intro h0
    have hrun : run (ops ++ [Op.release]) = decrement (run ops) := by
      simp [run, List.foldl_append, step]
    rw [hrun, decrement_count, h0]

/-- Claim C8 witness: a release against an empty count stays at zero. -/
theorem c8_witness :
    0 ≤ ((run [Op.release]).count : Int) ∧
      (run ([Op.release] ++ [Op.release])).count = 0 :=
  ⟨(c8_count_nonneg_and_saturating [Op.release] (by decide)).1,
    (c8_count_nonneg_and_saturating [Op.release] (by decide)).2 (by decide)⟩

/-- Claim C9: load returns false whenever the settings file is missing,
unreadable, malformed, or parses to a document without the `keep_awake`
key, and returns the stored boolean when the key holds one; it is total, so
it never fails the caller. -/
theorem c9_load_defaults_false :
    load_keep_awake FileContent.missing = false ∧
      load_keep_awake FileContent.unreadable = false ∧
      load_keep_awake FileContent.malformed = false ∧
      (∀ j : Json, j.get keepAwakeKey = none →
        load_keep_awake (FileContent.valid j) = false) ∧
      (∀ (j : Json) (b : Bool), j.get keepAwakeKey = some (Json.bool b) →
        load_keep_awake (FileContent.valid j) = b) := by
  refine ⟨rfl, rfl, rfl, ?_, ?_⟩
  · intro j h
    simp [load_keep_awake, parseRead, h]
  · intro j b h
    simp [load_keep_awake, parseRead, h, Json.as_bool]

/-- Claim C9 witness: a document without the key loads as false, one with
`keep_awake = true` loads as true. -/
theorem c9_witness :
    load_keep_awake (FileContent.valid (Json.obj [])) = false ∧
      load_keep_awake (FileContent.valid (Json.obj [(keepAwakeKey, Json.bool true)])) = true :=
  ⟨c9_load_defaults_false.2.2.2.1 (Json.obj []) rfl,
    c9_load_defaults_false.2.2.2.2 (Json.obj [(keepAwakeKey, Json.bool true)]) true rfl⟩

/-- Claim C2 counterexample: from the default state, one user toggle whose
handle creation fails yields `user_enabled = true` with `count = 0`, while
no automatic caller has contributed any unit — the count is not one greater
than the automatic contribution. -/
theorem c2_counterexample :
    (runG [Op.userToggle false]).1.user_enabled = true ∧
      ¬ (((runG [Op.userToggle false]).1.count : Int)
          = (runG [Op.userToggle false]).2 + 1) := by
  decide

/-- Claim C2 (amended): absent handle-creation failures, for sequences of
fewer than 2^32 operations (so the u32 counter cannot wrap) in which every
decrement (automatic release or toggle-off) happens while the count is
positive and `init` runs only while the user flag is off (its
once-at-startup lifecycle), whenever `user_enabled = true` the count is
exactly one greater than the net units the automatic acquire/release
callers contributed. -/
theorem c2_amended_user_unit_accounting (ops : List Op)
    (hg : goodTrace WakeLockState.defaultState ops = true)
    (hlen : ops.length < u32Mod)
    (hu : (runG ops).1.user_enabled = true) :
    ((runG ops).1.count : Int) = (runG ops).2 + 1 := by
  have h := countInv_foldl ops (WakeLockState.defaultState, 0)
    (by unfold countInv WakeLockState.defaultState; simp) hg
    (by simpa [WakeLockState.defaultState] using hlen)
  unfold countInv at h
  unfold runG at hu ⊢
  rw [hu, if_pos rfl] at h
  exact h

/-- Claim C2 witness: a successful toggle-on from the default state. -/
theorem c2_amended_witness :
    ((runG [Op.userToggle true]).1.count : Int) = (runG [Op.userToggle true]).2 + 1 :=
  c2_amended_user_unit_accounting [Op.userToggle true] (by decide) (by decide) (by decide)

/-- A settings document with `keep_awake = true`, as restored by `init`. -/
def trueDoc : FileContent :=
  FileContent.valid (Json.obj [(keepAwakeKey, Json.bool true)])

/-- Claim C4 counterexample: when handle creation fails, `init` on the
default-state manager with a persisted `keep_awake = true` still sets
`user_enabled`, but the count stays 0 — `active_count ≥ 1` does not hold as
the claim asserts for every such call. -/
theorem c4_counterexample :
    (initE false trueDoc 0 WakeLockState.defaultState).1.user_enabled = true ∧
      ¬ (1 ≤ (initE false trueDoc 0 WakeLockState.defaultState).1.count) := by
  decide

/-- Claim C4 (amended): absent handle-creation failure, calling `init` on a
default-state manager with a location whose persisted document has
`keep_awake = true` yields `user_enabled = true` and `active_count ≥ 1`,
and performs no write to the settings document. -/
theorem c4_amended_init_restores (kvs : List (String × Json)) (loc : Nat)
    (h : lookupKey kvs keepAwakeKey = some (Json.bool true)) :
    (initE true (FileContent.valid (Json.obj kvs)) loc
        WakeLockState.defaultState).1.user_enabled = true ∧
      1 ≤ (initE true (FileContent.valid (Json.obj kvs)) loc
        WakeLockState.defaultState).1.count ∧
      ∀ b : Bool, Event.saveWrite b ∉
        (initE true (FileContent.valid (Json.obj kvs)) loc
          WakeLockState.defaultState).2 := by
  have hl : load_keep_awake (FileContent.valid (Json.obj kvs)) = true := by
    simp [load_keep_awake, parseRead, Json.get, h, Json.as_bool]
  simp [initE, hl, incrementE, WakeLockState.defaultState, u32Mod]

/-- Claim C4 witness: the amended statement at the `keep_awake = true`
document. -/
theorem c4_amended_witness :
    (initE true trueDoc 0 WakeLockState.defaultState).1.user_enabled = true ∧
      1 ≤ (initE true trueDoc 0 WakeLockState.defaultState).1.count ∧
      ∀ b : Bool, Event.saveWrite b ∉
        (initE true trueDoc 0 WakeLockState.defaultState).2 :=
  c4_amended_init_restores [(keepAwakeKey, Json.bool true)] 0 rfl

lemma run_append_one (l : List Op) (op : Op) :
    run (l ++ [op]) = (step (run l) op).1 := by
  simp [run, List.foldl_append]

lemma allOk_replicate_acquire (n : Nat) :
    allOk (List.replicate n (Op.acquire true)) = true := by
  induction n with
  | zero => rfl
  | succ m ih => simp [List.replicate_succ, allOk, ih]

/-- The wrap trace: `m + 1` consecutive successful acquires from the default
state leave the u32 counter at `(m + 1) % 2^32` with the guard (created at
the very first acquire and never dropped) still held. -/
lemma run_replicate_acquire (m : Nat) (hb : m + 1 ≤ u32Mod) :
    (run (List.replicate (m + 1) (Op.acquire true))).count = (m + 1) % u32Mod ∧
      (run (List.replicate (m + 1) (Op.acquire true))).guard = true := by
  induction m with
  | zero => exact ⟨rfl, rfl⟩
  | succ k ih =>
      obtain ⟨ihc, ihg⟩ := ih (by omega)
      have hlt : k + 1 < u32Mod := by omega
      rw [List.replicate_succ', run_append_one]
      constructor
      · show (incrementE true (run (List.replicate (k + 1) (Op.acquire true)))).1.count = _
        rw [incrementE_count_ok, ihc, Nat.mod_eq_of_lt hlt]
      · show (incrementE true (run (List.replicate (k + 1) (Op.acquire true)))).1.guard = true
        rw [incrementE_guard]
        split_ifs
        · rfl
        · exact ihg

/-- After exactly `2^32` successful acquires the u32 counter has wrapped
back to 0 while the guard is still held. -/
lemma run_wrap_count :
    (run (List.replicate u32Mod (Op.acquire true))).count = 0 ∧
      (run (List.replicate u32Mod (Op.acquire true))).guard = true := by
  have e : u32Mod - 1 + 1 = u32Mod := by unfold u32Mod; omega
  have h := run_replicate_acquire (u32Mod - 1) (by unfold u32Mod; omega)
  rw [e] at h
  obtain ⟨hc, hg⟩ := h
  rw [Nat.mod_self] at hc
  exact ⟨hc, hg⟩

/-- Claim C5 counterexample: a sequence of `2^32` successful acquires — no
handle-creation failure anywhere — wraps the source's u32 counter back to 0
while the guard created at the first acquire is still held, so after that
sequence the guard is present with `count = 0` and the claimed equivalence
fails. -/
theorem c5_counterexample :
    allOk (List.replicate u32Mod (Op.acquire true)) = true ∧
      ¬ ((run (List.replicate u32Mod (Op.acquire true))).guard = true ↔
          0 < (run (List.replicate u32Mod (Op.acquire true))).count) := by
  refine ⟨allOk_replicate_acquire u32Mod, ?_⟩
  obtain ⟨hc, hg⟩ := run_wrap_count
  rw [hc, hg]
  simp

/-- Claim C5 (amended): absent any handle-creation failure, after every
sequence of fewer than 2^32 acquire, release, user_toggle, init and
release_all operations from the default state (so the u32 counter cannot
wrap), the guard is present if and only if the count is positive. -/
theorem c5_guard_iff_count_pos (ops : List Op) (_h : allOk ops = true)
    (hlen : ops.length < u32Mod) :
    (run ops).guard = true ↔ 0 < (run ops).count :=
  guardInv_run ops hlen

/-- Claim C5 witness: the invariant at a concrete successful trace. -/
theorem c5_witness :
    (run [Op.acquire true, Op.release]).guard = true ↔
      0 < (run [Op.acquire true, Op.release]).count :=
  c5_guard_iff_count_pos [Op.acquire true, Op.release] (by decide) (by decide)

/-- Claim C6 counterexample: in the manager state with `count = 0` and
`user_enabled = true` (reachable by a successful toggle-on followed by an
automatic release), two consecutive toggles finish with `count = 1`, not
the prior value 0 — the toggle is not its own inverse on every state. -/
theorem c6_counterexample :
    (user_toggleE true
        (user_toggleE true (WakeLockState.mk 0 false true none)).1).1.count
      ≠ (WakeLockState.mk 0 false true none).count := by
  decide

/-- Claim C6 (amended): for every manager state whose u32 count is below
`u32::MAX` (so the toggle-on increment cannot wrap), provided that when
`user_enabled` is true the manager still holds a positive count and the
re-acquire performed by the second call succeeds, two consecutive
`user_toggle` calls restore `user_enabled` and `active_count` to their
values before the first call, and the second call returns the original
`user_enabled`. -/
theorem c6_amended_toggle_involutive (s : WakeLockState) (ok1 ok2 : Bool)
    (hlt : s.count + 1 < u32Mod)
    (h : s.user_enabled = true → 0 < s.count ∧ ok2 = true) :
    (user_toggleE ok2 (user_toggleE ok1 s).1).1.count = s.count ∧
      (user_toggleE ok2 (user_toggleE ok1 s).1).1.user_enabled = s.user_enabled ∧
      (user_toggleE ok2 (user_toggleE ok1 s).1).2.2 = s.user_enabled := by
  rw [user_toggleE_ret]
  cases hu : s.user_enabled with
  | true =>
      obtain ⟨hc, hok2⟩ := h hu
      subst hok2
      have h1 : (user_toggleE ok1 s).1 = decrement { s with user_enabled := false } := by
        rw [user_toggleE_fst, if_pos hu]
      have hue1 : (user_toggleE ok1 s).1.user_enabled = false := by
        rw [h1, decrement_user_enabled, set_ue_ue]
      have h2 : (user_toggleE true (user_toggleE ok1 s).1).1
          = (incrementE true { (user_toggleE ok1 s).1 with user_enabled := true }).1 := by
        rw [user_toggleE_fst, if_neg (by simp [hue1])]
      refine ⟨?_, ?_, ?_⟩
      · rw [h2, incrementE_count_ok, set_ue_count, h1, decrement_count, set_ue_count,
          Nat.sub_add_cancel hc, Nat.mod_eq_of_lt (by omega)]
      · rw [h2, incrementE_user_enabled, set_ue_ue]
      · rw [h2, incrementE_user_enabled, set_ue_ue]
  | false =>
      have h1 : (user_toggleE ok1 s).1
          = (incrementE ok1 { s with user_enabled := true }).1 := by
        rw [user_toggleE_fst, if_neg (by simp [hu])]
      have hue1 : (user_toggleE ok1 s).1.user_enabled = true := by
        rw [h1, incrementE_user_enabled, set_ue_ue]
      have h2 : (user_toggleE ok2 (user_toggleE ok1 s).1).1
          = decrement { (user_toggleE ok1 s).1 with user_enabled := false } := by
        rw [user_toggleE_fst, if_pos hue1]
      refine ⟨?_, ?_, ?_⟩
      · rw [h2, decrement_count, set_ue_count, h1, incrementE_count, set_ue_count,
          Nat.mod_eq_of_lt hlt]
        split_ifs with hif
        · obtain ⟨h0, -⟩ := hif
          omega
        · omega
      · rw [h2, decrement_user_enabled, set_ue_ue]
      · rw [h2, decrement_user_enabled, set_ue_ue]

/-- Claim C6 witness: the amended statement at a held, enabled state. -/
theorem c6_amended_witness :
    (user_toggleE true
        (user_toggleE true (WakeLockState.mk 1 true true (some 0))).1).1.count
        = (WakeLockState.mk 1 true true (some 0)).count ∧
      (user_toggleE true
        (user_toggleE true (WakeLockState.mk 1 true true (some 0))).1).1.user_enabled
        = (WakeLockState.mk 1 true true (some 0)).user_enabled ∧
      (user_toggleE true
        (user_toggleE true (WakeLockState.mk 1 true true (some 0))).1).2.2
        = (WakeLockState.mk 1 true true (some 0)).user_enabled :=
  c6_amended_toggle_involutive (WakeLockState.mk 1 true true (some 0)) true true
    (by decide) (by decide)

/-- Claim C10 counterexample: the equivalence does not hold after every
sequence — `2^32` successful acquires wrap the u32 counter back to 0 while
the guard is still held, leaving the guard present with `count = 0`. -/
theorem c10_counterexample :
    ¬ ((run (List.replicate u32Mod (Op.acquire true))).guard = true ↔
        0 < (run (List.replicate u32Mod (Op.acquire true))).count) := by
  obtain ⟨hc, hg⟩ := run_wrap_count
  rw [hc, hg]
  simp

/-- Claim C10 (amended): a failed creation leaves the count unchanged, and
after every sequentially executed sequence of fewer than 2^32 operations —
handle-creation failures included — the guard is present iff the count is
positive; moreover, after every sequence whatsoever (counter wrap included)
a positive count still implies the guard is held, so the DEGRADED state
(count > 0 with guard absent) is unreachable from the default state. -/
theorem c10_guard_iff_count_pos_all_traces (ops : List Op) :
    (ops.length < u32Mod → ((run ops).guard = true ↔ 0 < (run ops).count)) ∧
      ¬ (0 < (run ops).count ∧ (run ops).guard = false) := by
  constructor
  · intro hlen
    exact guardInv_run ops hlen
  · rintro ⟨hpos, hg⟩
    have hguard := weakInv_run ops hpos
    rw [hguard] at hg
    simp at hg

/-- Claim C10 witness: the amended statement at a trace with one failed and
one successful acquire. -/
theorem c10_witness :
    ((run [Op.acquire false, Op.acquire true]).guard = true ↔
        0 < (run [Op.acquire false, Op.acquire true]).count) ∧
      ¬ (0 < (run [Op.acquire false, Op.acquire true]).count ∧
          (run [Op.acquire false, Op.acquire true]).guard = false) :=
  ⟨(c10_guard_iff_count_pos_all_traces [Op.acquire false, Op.acquire true]).1 (by decide),
    (c10_guard_iff_count_pos_all_traces [Op.acquire false, Op.acquire true]).2⟩
